import Mathlib

/-!
Verification of the Binaural Dreamscapes audio engine (src/app.py).

The embedding models the tone parameters as exact rationals (Python floats
carry rational values), the waveform samples as real numbers, and each
operation of the program as a pure Lean function on an explicit state.
-/

open Real

/-- Fixed sample rate of the process, `sampling_rate = 44100` in app.py. -/
def sampling_rate : ℕ := 44100

/-- Tone parameters: the five shared globals of app.py
(`frequency_left`, `frequency_right`, `phase_left`, `phase_right`, `volume`). -/
structure ToneParameters where
  frequency_left : ℚ
  frequency_right : ℚ
  phase_left : ℚ
  phase_right : ℚ
  volume : ℚ
deriving DecidableEq, Repr

/-- Initial values of the globals in app.py (volume 0.2, 100 Hz / 104 Hz, phases 0). -/
def initialParams : ToneParameters :=
  { frequency_left := 100, frequency_right := 104,
    phase_left := 0, phase_right := 0, volume := 1/5 }

/-- Concrete integer-valued parameter record used to instantiate theorems. -/
def witnessParams : ToneParameters :=
  { frequency_left := 100, frequency_right := 104,
    phase_left := 0, phase_right := 0, volume := 1 }

/-- Sample-time values of one block in `audio_callback`:
`t = (np.arange(frames) + time.outputBufferDacTime * sampling_rate) % sampling_rate`,
with the driver-derived offset modelled as the absolute start sample. -/
def tArray (startSample frames sr : ℕ) : List ℕ :=
  (List.range frames).map (fun i => (i + startSample) % sr)

/-- Scalar left-channel formula of `audio_callback` at sample time `t`:
`volume * 0.5 * sin(2π * frequency_left * t / sampling_rate + phase_left * π/180)`. -/
noncomputable def leftAt (p : ToneParameters) (sr : ℕ) (t : ℕ) : ℝ :=
  (p.volume : ℝ) * 0.5 *
    Real.sin (2 * Real.pi * (p.frequency_left : ℝ) * (t : ℝ) / (sr : ℝ)
      + (p.phase_left : ℝ) * Real.pi / 180)

/-- Scalar right-channel formula of `audio_callback` at sample time `t`. -/
noncomputable def rightAt (p : ToneParameters) (sr : ℕ) (t : ℕ) : ℝ :=
  (p.volume : ℝ) * 0.5 *
    Real.sin (2 * Real.pi * (p.frequency_right : ℝ) * (t : ℝ) / (sr : ℝ)
      + (p.phase_right : ℝ) * Real.pi / 180)

/-- Left channel written by `audio_callback` into `outdata[:, 0]` for one block. -/
noncomputable def leftChannel (p : ToneParameters) (startSample frames sr : ℕ) : List ℝ :=
  (tArray startSample frames sr).map (leftAt p sr)

/-- Right channel written by `audio_callback` into `outdata[:, 1]` for one block. -/
noncomputable def rightChannel (p : ToneParameters) (startSample frames sr : ℕ) : List ℝ :=
  (tArray startSample frames sr).map (rightAt p sr)

lemma tArray_length (startSample frames sr : ℕ) :
    (tArray startSample frames sr).length = frames := by
  simp [tArray]

lemma leftChannel_length (p : ToneParameters) (startSample frames sr : ℕ) :
    (leftChannel p startSample frames sr).length = frames := by
  simp [leftChannel, tArray]

lemma rightChannel_length (p : ToneParameters) (startSample frames sr : ℕ) :
    (rightChannel p startSample frames sr).length = frames := by
  simp [rightChannel, tArray]

lemma leftChannel_getD (p : ToneParameters) (startSample frames sr i : ℕ)
    (hi : i < frames) :
    (leftChannel p startSample frames sr).getD i 0 =
      leftAt p sr ((startSample + i) % sr) := by
  have hlen : i < (leftChannel p startSample frames sr).length := by
    rw [leftChannel_length]; exact hi
  rw [List.getD_eq_getElem _ _ hlen]
  simp [leftChannel, tArray, Nat.add_comm]

lemma rightChannel_getD (p : ToneParameters) (startSample frames sr i : ℕ)
    (hi : i < frames) :
    (rightChannel p startSample frames sr).getD i 0 =
      rightAt p sr ((startSample + i) % sr) := by
  have hlen : i < (rightChannel p startSample frames sr).length := by
    rw [rightChannel_length]; exact hi
  rw [List.getD_eq_getElem _ _ hlen]
  simp [rightChannel, tArray, Nat.add_comm]

/-- C1: for every valid parameter record, start sample, positive sample rate and
index `i` within the block, `audio_callback` writes
`left[i] = volume * 0.5 * sin(2π·f_L·t/sr + φ_L·π/180)` and
`right[i] = volume * 0.5 * sin(2π·f_R·t/sr + φ_R·π/180)` with
`t = (startSample + i) mod sr`; the channels are pure functions of these inputs. -/
theorem audio_callback_formula (p : ToneParameters) (startSample frames sr i : ℕ)
    (hsr : 0 < sr) (hi : i < frames) :
    (leftChannel p startSample frames sr).getD i 0 =
      (p.volume : ℝ) * 0.5 *
        Real.sin (2 * Real.pi * (p.frequency_left : ℝ)
          * (((startSample + i) % sr : ℕ) : ℝ) / (sr : ℝ)
          + (p.phase_left : ℝ) * Real.pi / 180) ∧
    (rightChannel p startSample frames sr).getD i 0 =
      (p.volume : ℝ) * 0.5 *
        Real.sin (2 * Real.pi * (p.frequency_right : ℝ)
          * (((startSample + i) % sr : ℕ) : ℝ) / (sr : ℝ)
          + (p.phase_right : ℝ) * Real.pi / 180) := by
  refine ⟨?_, ?_⟩
  · rw [leftChannel_getD p startSample frames sr i hi]; rfl
  · rw [rightChannel_getD p startSample frames sr i hi]; rfl

/-- Witness for C1 at concrete inputs. -/
theorem audio_callback_formula_witness :
    0 < 44100 ∧ 0 < 4 ∧
    ((leftChannel witnessParams 0 4 44100).getD 0 0 =
      ((witnessParams.volume : ℝ) * 0.5 *
        Real.sin (2 * Real.pi * (witnessParams.frequency_left : ℝ)
          * (((0 + 0) % 44100 : ℕ) : ℝ) / (44100 : ℝ)
          + (witnessParams.phase_left : ℝ) * Real.pi / 180)) ∧
    (rightChannel witnessParams 0 4 44100).getD 0 0 =
      ((witnessParams.volume : ℝ) * 0.5 *
        Real.sin (2 * Real.pi * (witnessParams.frequency_right : ℝ)
          * (((0 + 0) % 44100 : ℕ) : ℝ) / (44100 : ℝ)
          + (witnessParams.phase_right : ℝ) * Real.pi / 180))) :=
  ⟨by decide, by decide,
    audio_callback_formula witnessParams 0 4 44100 0 (by decide) (by decide)⟩

/-- C2: under constant parameters, rendering a block of length `N` from start
sample `0` followed by a block of length `M` from start sample `N` yields,
sample for sample, the same sequence as one block of length `N + M` from start
sample `0`, on both channels (phase continuity across block boundaries). -/
theorem audio_callback_phase_continuity (p : ToneParameters) (N M sr : ℕ) :
    leftChannel p 0 N sr ++ leftChannel p N M sr = leftChannel p 0 (N + M) sr ∧
    rightChannel p 0 N sr ++ rightChannel p N M sr = rightChannel p 0 (N + M) sr := by
  constructor <;>
  · simp only [leftChannel, rightChannel, tArray, ← List.map_append, List.range_add,
      List.map_map]
    simp [Function.comp_def, Nat.add_comm]

/-- C3: with volume in `[0, 1]`, every sample value of either channel lies within
`[-volume/2, volume/2]`, hence within `[-0.5, 0.5]` (no clipping). -/
theorem audio_callback_amplitude_bound (p : ToneParameters)
    (startSample frames sr i : ℕ) (hi : i < frames)
    (h0 : 0 ≤ p.volume) (h1 : p.volume ≤ 1) :
    |(leftChannel p startSample frames sr).getD i 0| ≤ (p.volume : ℝ) / 2 ∧
    |(rightChannel p startSample frames sr).getD i 0| ≤ (p.volume : ℝ) / 2 ∧
    (p.volume : ℝ) / 2 ≤ 1 / 2 := by
  have hv0 : (0 : ℝ) ≤ (p.volume : ℝ) := by exact_mod_cast h0
  have hv1 : (p.volume : ℝ) ≤ 1 := by exact_mod_cast h1
  refine ⟨?_, ?_, by linarith⟩
  · rw [leftChannel_getD p startSample frames sr i hi]
    unfold leftAt
    rw [abs_mul, abs_mul]
    have hs := Real.abs_sin_le_one (2 * Real.pi * (p.frequency_left : ℝ)
      * (((startSample + i) % sr : ℕ) : ℝ) / (sr : ℝ)
      + (p.phase_left : ℝ) * Real.pi / 180)
    have habs : |(p.volume : ℝ)| = (p.volume : ℝ) := abs_of_nonneg hv0
    rw [habs]
    have h05 : |(0.5 : ℝ)| = 0.5 := by rw [abs_of_nonneg]; norm_num
    rw [h05]
    nlinarith [abs_nonneg (Real.sin (2 * Real.pi * (p.frequency_left : ℝ)
      * (((startSample + i) % sr : ℕ) : ℝ) / (sr : ℝ)
      + (p.phase_left : ℝ) * Real.pi / 180))]
  · rw [rightChannel_getD p startSample frames sr i hi]
    unfold rightAt
    rw [abs_mul, abs_mul]
    have hs := Real.abs_sin_le_one (2 * Real.pi * (p.frequency_right : ℝ)
      * (((startSample + i) % sr : ℕ) : ℝ) / (sr : ℝ)
      + (p.phase_right : ℝ) * Real.pi / 180)
    have habs : |(p.volume : ℝ)| = (p.volume : ℝ) := abs_of_nonneg hv0
    rw [habs]
    have h05 : |(0.5 : ℝ)| = 0.5 := by rw [abs_of_nonneg]; norm_num
    rw [h05]
    nlinarith [abs_nonneg (Real.sin (2 * Real.pi * (p.frequency_right : ℝ)
      * (((startSample + i) % sr : ℕ) : ℝ) / (sr : ℝ)
      + (p.phase_right : ℝ) * Real.pi / 180))]

/-- Witness for C3 at concrete inputs. -/
theorem audio_callback_amplitude_bound_witness :
    (0 < 4 ∧ 0 ≤ witnessParams.volume ∧ witnessParams.volume ≤ 1) ∧
    (|(leftChannel witnessParams 0 4 44100).getD 0 0| ≤ (witnessParams.volume : ℝ) / 2 ∧
     |(rightChannel witnessParams 0 4 44100).getD 0 0| ≤ (witnessParams.volume : ℝ) / 2 ∧
     (witnessParams.volume : ℝ) / 2 ≤ 1 / 2) :=
  ⟨⟨by decide, by decide, by decide⟩,
    audio_callback_amplitude_bound witnessParams 0 4 44100 0
      (by decide) (by decide) (by decide)⟩

/-- Validation domain of the parameter store: frequencies in `[1, 20000]`,
phases in `[0, 360]`, volume in `[0, 1]`. -/
def paramsValid (p : ToneParameters) : Prop :=
  1 ≤ p.frequency_left ∧ p.frequency_left ≤ 20000 ∧
  1 ≤ p.frequency_right ∧ p.frequency_right ≤ 20000 ∧
  0 ≤ p.phase_left ∧ p.phase_left ≤ 360 ∧
  0 ≤ p.phase_right ∧ p.phase_right ≤ 360 ∧
  0 ≤ p.volume ∧ p.volume ≤ 1

instance (p : ToneParameters) : Decidable (paramsValid p) := by
  unfold paramsValid; infer_instance

/-- Left-frequency update of app.py (`update_frequency_left`): the entered value
is stored when `1 <= f <= 20000`, reporting success; otherwise an error dialog
is shown and the stored parameters are left unchanged. -/
def update_frequency_left (s : ToneParameters) (input : ℚ) : ToneParameters × Bool :=
  if 1 ≤ input ∧ input ≤ 20000 then ({ s with frequency_left := input }, true)
  else (s, false)

/-- Right-frequency update of app.py (`update_frequency_right`). -/
def update_frequency_right (s : ToneParameters) (input : ℚ) : ToneParameters × Bool :=
  if 1 ≤ input ∧ input ≤ 20000 then ({ s with frequency_right := input }, true)
  else (s, false)

/-- Left-phase update of app.py (`update_phase_left`): accepts `0 <= x <= 360`. -/
def update_phase_left (s : ToneParameters) (input : ℚ) : ToneParameters × Bool :=
  if 0 ≤ input ∧ input ≤ 360 then ({ s with phase_left := input }, true)
  else (s, false)

/-- Right-phase update of app.py (`update_phase_right`). -/
def update_phase_right (s : ToneParameters) (input : ℚ) : ToneParameters × Bool :=
  if 0 ≤ input ∧ input ≤ 360 then ({ s with phase_right := input }, true)
  else (s, false)

/-- Volume update of app.py (`update_volume`): stores `val / 100` with no
validation of `val` whatsoever. -/
def update_volume (s : ToneParameters) (val : ℚ) : ToneParameters :=
  { s with volume := val / 100 }

/-- Configuration load of app.py (`load_selected_config`): the selected record
is unpacked into the five globals verbatim, with no validation of any field. -/
def load_selected_config (s : ToneParameters) (config : ToneParameters) : ToneParameters :=
  let _ := s
  config

/-- State after the first store of `load_selected_config`'s tuple assignment
(the assignment unpacks the record into the five globals in order
`frequency_left`, `frequency_right`, `phase_left`, `phase_right`, `volume`). -/
def store1 (old c : ToneParameters) : ToneParameters :=
  { old with frequency_left := c.frequency_left }

/-- State after the second store of the tuple assignment. -/
def store2 (old c : ToneParameters) : ToneParameters :=
  { store1 old c with frequency_right := c.frequency_right }

/-- State after the third store of the tuple assignment. -/
def store3 (old c : ToneParameters) : ToneParameters :=
  { store2 old c with phase_left := c.phase_left }

/-- State after the fourth store of the tuple assignment. -/
def store4 (old c : ToneParameters) : ToneParameters :=
  { store3 old c with phase_right := c.phase_right }

/-- Store state after the first `k` of the five sequential global stores
performed by the tuple assignment in `load_selected_config`. -/
def storesUpTo (old c : ToneParameters) : ℕ → ToneParameters
  | 0 => old
  | 1 => store1 old c
  | 2 => store2 old c
  | 3 => store3 old c
  | 4 => store4 old c
  | _ + 5 => c

/-- Snapshot assembled by a reader (such as `audio_callback`) whose five
separate global reads interleave with the writer: field `f` is read at a point
where `k_f` of the writer's stores have completed. Each single read is atomic
(one CPython global load), but the five reads need not fall at the same point. -/
def interleavedSnapshot (old c : ToneParameters)
    (kfl kfr kpl kpr kv : ℕ) : ToneParameters :=
  { frequency_left := (storesUpTo old c kfl).frequency_left,
    frequency_right := (storesUpTo old c kfr).frequency_right,
    phase_left := (storesUpTo old c kpl).phase_left,
    phase_right := (storesUpTo old c kpr).phase_right,
    volume := (storesUpTo old c kv).volume }

lemma storesUpTo_frequency_left (old c : ToneParameters) (k : ℕ) :
    (storesUpTo old c k).frequency_left = old.frequency_left ∨
    (storesUpTo old c k).frequency_left = c.frequency_left := by
  rcases k with _ | _ | _ | _ | _ | k <;> simp [storesUpTo, store1, store2, store3, store4]

lemma storesUpTo_frequency_right (old c : ToneParameters) (k : ℕ) :
    (storesUpTo old c k).frequency_right = old.frequency_right ∨
    (storesUpTo old c k).frequency_right = c.frequency_right := by
  rcases k with _ | _ | _ | _ | _ | k <;> simp [storesUpTo, store1, store2, store3, store4]

lemma storesUpTo_phase_left (old c : ToneParameters) (k : ℕ) :
    (storesUpTo old c k).phase_left = old.phase_left ∨
    (storesUpTo old c k).phase_left = c.phase_left := by
  rcases k with _ | _ | _ | _ | _ | k <;> simp [storesUpTo, store1, store2, store3, store4]

lemma storesUpTo_phase_right (old c : ToneParameters) (k : ℕ) :
    (storesUpTo old c k).phase_right = old.phase_right ∨
    (storesUpTo old c k).phase_right = c.phase_right := by
  rcases k with _ | _ | _ | _ | _ | k <;> simp [storesUpTo, store1, store2, store3, store4]

lemma storesUpTo_volume (old c : ToneParameters) (k : ℕ) :
    (storesUpTo old c k).volume = old.volume ∨
    (storesUpTo old c k).volume = c.volume := by
  rcases k with _ | _ | _ | _ | _ | k <;> simp [storesUpTo, store1, store2, store3, store4]

/-- Counterexample to C4: a reader that takes its snapshot after the writer has
completed exactly one of its five stores observes the new left frequency
together with the old values of every other field — a state equal neither to
the complete old parameters nor to the complete new ones. -/
theorem snapshot_torn_read :
    interleavedSnapshot witnessParams
      ⟨200, 210, 90, 45, 1⟩ 1 1 1 1 1 ≠ witnessParams ∧
    interleavedSnapshot witnessParams
      ⟨200, 210, 90, 45, 1⟩ 1 1 1 1 1 ≠ ⟨200, 210, 90, 45, 1⟩ := by
  decide

/-- C4 amended: single-field atomicity is all that holds. Every field of a
snapshot whose reads interleave with one update equals either that field's old
value or its new value, but distinct fields may come from different sides, and
a snapshot whose reads all fall at one point (all `k` equal, `0` or `≥ 5`)
observes the complete old or complete new value. -/
theorem snapshot_field_atomicity (old c : ToneParameters)
    (kfl kfr kpl kpr kv : ℕ) :
    ((interleavedSnapshot old c kfl kfr kpl kpr kv).frequency_left
        = old.frequency_left ∨
     (interleavedSnapshot old c kfl kfr kpl kpr kv).frequency_left
        = c.frequency_left) ∧
    ((interleavedSnapshot old c kfl kfr kpl kpr kv).frequency_right
        = old.frequency_right ∨
     (interleavedSnapshot old c kfl kfr kpl kpr kv).frequency_right
        = c.frequency_right) ∧
    ((interleavedSnapshot old c kfl kfr kpl kpr kv).phase_left
        = old.phase_left ∨
     (interleavedSnapshot old c kfl kfr kpl kpr kv).phase_left
        = c.phase_left) ∧
    ((interleavedSnapshot old c kfl kfr kpl kpr kv).phase_right
        = old.phase_right ∨
     (interleavedSnapshot old c kfl kfr kpl kpr kv).phase_right
        = c.phase_right) ∧
    ((interleavedSnapshot old c kfl kfr kpl kpr kv).volume = old.volume ∨
     (interleavedSnapshot old c kfl kfr kpl kpr kv).volume = c.volume) ∧
    interleavedSnapshot old c 0 0 0 0 0 = old ∧
    interleavedSnapshot old c 5 5 5 5 5 = c := by
  refine ⟨storesUpTo_frequency_left old c kfl, storesUpTo_frequency_right old c kfr,
    storesUpTo_phase_left old c kpl, storesUpTo_phase_right old c kpr,
    storesUpTo_volume old c kv, ?_, ?_⟩ <;>
  simp [interleavedSnapshot, storesUpTo, store1, store2, store3, store4]

/-- Counterexample to C5: loading a stored configuration applies the record to
the store verbatim with no validation, so a record carrying frequency 0 puts
the store into an out-of-range state. -/
theorem load_config_breaks_invariant :
    paramsValid witnessParams ∧
    load_selected_config witnessParams ⟨0, 104, 0, 0, 1⟩ = ⟨0, 104, 0, 0, 1⟩ ∧
    ¬ paramsValid (load_selected_config witnessParams ⟨0, 104, 0, 0, 1⟩) := by
  refine ⟨by decide, rfl, by decide⟩

/-- C5 amended: the frequency and phase update handlers validate and preserve
the range invariant unconditionally; `update_volume` and `load_selected_config`
perform no validation — the former stores `val / 100`, the latter stores the
record verbatim — so they preserve the invariant only when their inputs happen
to lie in range. -/
theorem store_invariant_preservation (s config : ToneParameters) (input val : ℚ)
    (hs : paramsValid s) :
    paramsValid (update_frequency_left s input).1 ∧
    paramsValid (update_frequency_right s input).1 ∧
    paramsValid (update_phase_left s input).1 ∧
    paramsValid (update_phase_right s input).1 ∧
    (update_volume s val).volume = val / 100 ∧
    (0 ≤ val → val ≤ 100 → paramsValid (update_volume s val)) ∧
    load_selected_config s config = config ∧
    (paramsValid config → paramsValid (load_selected_config s config)) := by
  obtain ⟨h1, h2, h3, h4, h5, h6, h7, h8, h9, h10⟩ := hs
  refine ⟨?_, ?_, ?_, ?_, rfl, ?_, rfl, fun hc => hc⟩
  · unfold update_frequency_left
    split
    · rename_i h
      exact ⟨h.1, h.2, h3, h4, h5, h6, h7, h8, h9, h10⟩
    · exact ⟨h1, h2, h3, h4, h5, h6, h7, h8, h9, h10⟩
  · unfold update_frequency_right
    split
    · rename_i h
      exact ⟨h1, h2, h.1, h.2, h5, h6, h7, h8, h9, h10⟩
    · exact ⟨h1, h2, h3, h4, h5, h6, h7, h8, h9, h10⟩
  · unfold update_phase_left
    split
    · rename_i h
      exact ⟨h1, h2, h3, h4, h.1, h.2, h7, h8, h9, h10⟩
    · exact ⟨h1, h2, h3, h4, h5, h6, h7, h8, h9, h10⟩
  · unfold update_phase_right
    split
    · rename_i h
      exact ⟨h1, h2, h3, h4, h5, h6, h.1, h.2, h9, h10⟩
    · exact ⟨h1, h2, h3, h4, h5, h6, h7, h8, h9, h10⟩
  · intro hv0 hv100
    refine ⟨h1, h2, h3, h4, h5, h6, h7, h8, ?_, ?_⟩
    · unfold update_volume
      positivity
    · unfold update_volume
      simp only
      linarith

/-- Witness for the amended C5 at concrete inputs. -/
theorem store_invariant_preservation_witness :
    paramsValid witnessParams ∧
    (paramsValid (update_frequency_left witnessParams 5).1 ∧
     paramsValid (update_frequency_right witnessParams 5).1 ∧
     paramsValid (update_phase_left witnessParams 5).1 ∧
     paramsValid (update_phase_right witnessParams 5).1 ∧
     (update_volume witnessParams 50).volume = 50 / 100 ∧
     (0 ≤ (50:ℚ) → (50:ℚ) ≤ 100 → paramsValid (update_volume witnessParams 50)) ∧
     load_selected_config witnessParams witnessParams = witnessParams ∧
     (paramsValid witnessParams →
       paramsValid (load_selected_config witnessParams witnessParams))) :=
  ⟨by decide, store_invariant_preservation witnessParams witnessParams 5 50 (by decide)⟩

/-- C6: on both frequency channels, inputs 0, 0.999 and 20000.1 are rejected
and leave the stored frequency at its previous value, while inputs 1 and 20000
(boundaries inclusive) are accepted and stored. -/
theorem frequency_update_boundaries (s : ToneParameters) :
    update_frequency_left s 0 = (s, false) ∧
    update_frequency_left s (999/1000) = (s, false) ∧
    update_frequency_left s (200001/10) = (s, false) ∧
    update_frequency_left s 1 = ({ s with frequency_left := 1 }, true) ∧
    update_frequency_left s 20000 = ({ s with frequency_left := 20000 }, true) ∧
    update_frequency_right s 0 = (s, false) ∧
    update_frequency_right s (999/1000) = (s, false) ∧
    update_frequency_right s (200001/10) = (s, false) ∧
    update_frequency_right s 1 = ({ s with frequency_right := 1 }, true) ∧
    update_frequency_right s 20000 = ({ s with frequency_right := 20000 }, true) := by
  norm_num [update_frequency_left, update_frequency_right]

/-- Counterexample to C7: `update_volume` applied to the out-of-range
control-surface input 150 is not rejected — it overwrites the stored volume
with 1.5, which is both different from the prior volume and outside `[0, 1]`. -/
theorem setVolume_150_not_rejected :
    (update_volume witnessParams 150).volume = 3/2 ∧
    (update_volume witnessParams 150).volume ≠ witnessParams.volume ∧
    ¬ ((update_volume witnessParams 150).volume ≤ 1) := by
  norm_num [update_volume, witnessParams]

/-- C7 amended: `update_volume` performs no validation and signals no error: it
unconditionally stores `val / 100` (and touches nothing else), for every input
including those outside the control-surface domain `[0, 100]`; the slider
widget's range is the only guard against out-of-range volumes. -/
theorem update_volume_unconditional (s : ToneParameters) (val : ℚ) :
    update_volume s val = { s with volume := val / 100 } := rfl

/-- Number of points of the waveform plot in `plot_waveforms`:
`int(sampling_rate * duration)` with `duration = 0.05` seconds, i.e. 2205. -/
def plotSamples : ℕ := 2205

/-- Time axis of the plot, `np.linspace(0, duration, plotSamples, endpoint=False)`:
the i-th point is `i * 0.05 / plotSamples` seconds. -/
noncomputable def plot_t (i : ℕ) : ℝ := (i : ℝ) * 0.05 / (plotSamples : ℝ)

/-- `wave1` of `plot_waveforms`:
`0.5 * np.sin(2 * np.pi * frequency_left * t + radian_phase_left)` —
note the absence of the volume factor. -/
noncomputable def plot_wave1 (p : ToneParameters) (i : ℕ) : ℝ :=
  0.5 * Real.sin (2 * Real.pi * (p.frequency_left : ℝ) * plot_t i
    + (p.phase_left : ℝ) * Real.pi / 180)

/-- `wave2` of `plot_waveforms`, the right-channel plot curve. -/
noncomputable def plot_wave2 (p : ToneParameters) (i : ℕ) : ℝ :=
  0.5 * Real.sin (2 * Real.pi * (p.frequency_right : ℝ) * plot_t i
    + (p.phase_right : ℝ) * Real.pi / 180)

/-- Concrete parameters exhibiting the plot/render mismatch: phases of 90
degrees and the default volume 0.2. -/
def plotDemoParams : ToneParameters :=
  { frequency_left := 100, frequency_right := 104,
    phase_left := 90, phase_right := 90, volume := 1/5 }

lemma plot_t_eq (i : ℕ) : plot_t i = (i : ℝ) / (sampling_rate : ℝ) := by
  unfold plot_t plotSamples sampling_rate
  push_cast
  ring_nf

/-- Counterexample to C9: at sample index 0 with phase 90° and volume 0.2, the
plot curve evaluates to 0.5 while the audio callback writes 0.1 — the plot
omits the volume factor, so the two components do not compute the same value. -/
theorem plot_wave_differs_from_callback :
    plot_wave1 plotDemoParams 0 = 1/2 ∧
    (leftChannel plotDemoParams 0 plotSamples sampling_rate).getD 0 0 = 1/10 ∧
    ((1:ℝ)/2) ≠ 1/10 := by
  refine ⟨?_, ?_, by norm_num⟩
  · have harg : 2 * Real.pi * (plotDemoParams.frequency_left : ℝ) * plot_t 0
        + (plotDemoParams.phase_left : ℝ) * Real.pi / 180 = Real.pi / 2 := by
      simp only [plotDemoParams, plot_t, plotSamples]
      push_cast
      ring
    unfold plot_wave1
    rw [harg, Real.sin_pi_div_two]
    norm_num
  · have hL := leftChannel_getD plotDemoParams 0 plotSamples sampling_rate 0
      (by norm_num [plotSamples])
    rw [hL]
    have harg : 2 * Real.pi * (plotDemoParams.frequency_left : ℝ)
        * (((0 + 0) % sampling_rate : ℕ) : ℝ) / (sampling_rate : ℝ)
        + (plotDemoParams.phase_left : ℝ) * Real.pi / 180 = Real.pi / 2 := by
      simp only [plotDemoParams, sampling_rate]
      norm_num
      ring
    unfold leftAt
    rw [harg, Real.sin_pi_div_two]
    simp only [plotDemoParams]
    push_cast
    norm_num

/-- C9 amended: for every parameter record and every index of the plot window,
the plot curves equal the callback's samples at `startSample = 0` divided by
the volume factor: `plot_wave * volume = rendered sample`, on both channels;
the two components agree on the sine formula but the plot omits the volume. -/
theorem plot_matches_render_up_to_volume (p : ToneParameters) (i : ℕ)
    (hi : i < plotSamples) :
    plot_wave1 p i * (p.volume : ℝ) =
      (leftChannel p 0 plotSamples sampling_rate).getD i 0 ∧
    plot_wave2 p i * (p.volume : ℝ) =
      (rightChannel p 0 plotSamples sampling_rate).getD i 0 := by
  have hi' : i < sampling_rate := by
    have : plotSamples < sampling_rate := by norm_num [plotSamples, sampling_rate]
    omega
  have hmod : (0 + i) % sampling_rate = i := by
    simpa using Nat.mod_eq_of_lt hi'
  constructor
  · rw [leftChannel_getD p 0 plotSamples sampling_rate i hi, hmod]
    unfold plot_wave1 leftAt
    rw [plot_t_eq]
    ring
  · rw [rightChannel_getD p 0 plotSamples sampling_rate i hi, hmod]
    unfold plot_wave2 rightAt
    rw [plot_t_eq]
    ring

/-- Witness for the amended C9 at concrete inputs. -/
theorem plot_matches_render_up_to_volume_witness :
    0 < plotSamples ∧
    (plot_wave1 witnessParams 0 * (witnessParams.volume : ℝ) =
      (leftChannel witnessParams 0 plotSamples sampling_rate).getD 0 0 ∧
    plot_wave2 witnessParams 0 * (witnessParams.volume : ℝ) =
      (rightChannel witnessParams 0 plotSamples sampling_rate).getD 0 0) :=
  ⟨by decide, plot_matches_render_up_to_volume witnessParams 0 (by decide)⟩

/-- Lifecycle states of the sounddevice output stream held by the `stream`
global of app.py: absent (`stream is None`), present but stopped, or running. -/
inductive StreamState
  | absent
  | inactive
  | active
deriving DecidableEq, Repr

/-- Mutable state of app.py relevant to the stream controls: the five tone
parameters, the stream handle, and the two transport buttons. -/
structure AppState where
  params : ToneParameters
  stream : StreamState
  start_enabled : Bool
  stop_enabled : Bool
deriving DecidableEq, Repr

/-- `start_stream` of app.py: when `stream is None or not stream.active`, a new
stream is created and started and the transport buttons are toggled; otherwise
nothing happens. -/
def start_stream (s : AppState) : AppState :=
  if s.stream = StreamState.absent ∨ s.stream ≠ StreamState.active then
    { s with stream := StreamState.active,
             start_enabled := false, stop_enabled := true }
  else s

/-- `stop_stream` of app.py: when `stream is not None and stream.active`, the
stream is stopped and the transport buttons are toggled; otherwise nothing
happens. -/
def stop_stream (s : AppState) : AppState :=
  if s.stream ≠ StreamState.absent ∧ s.stream = StreamState.active then
    { s with stream := StreamState.inactive,
             start_enabled := true, stop_enabled := false }
  else s

lemma start_stream_params (s : AppState) : (start_stream s).params = s.params := by
  unfold start_stream
  split <;> rfl

lemma stop_stream_params (s : AppState) : (stop_stream s).params = s.params := by
  unfold stop_stream
  split <;> rfl

/-- C10: `start_stream` and `stop_stream`, from any application state, leave
the stored tone parameters untouched — they modify only the stream handle and
the button affordances — so the parameters persist across stop/start cycles. -/
theorem start_stop_preserve_parameters (s : AppState) :
    (start_stream s).params = s.params ∧
    (stop_stream s).params = s.params ∧
    (start_stream (stop_stream s)).params = s.params ∧
    (stop_stream (start_stream s)).params = s.params := by
  refine ⟨start_stream_params s, stop_stream_params s, ?_, ?_⟩
  · rw [start_stream_params, stop_stream_params]
  · rw [stop_stream_params, start_stream_params]
